import Mathlib

/-!
Verification development for a two-context web application: a main-thread
launcher (`src/bin/main.rs`) that creates a canvas, converts it to an
OffscreenCanvas and hands it to a web worker, and a worker-side bootstrap
(`src/bin/bevy_worker.rs`) that receives the canvas and runs a single
render pass of a game engine on it.

The embedding is shallow: browser objects (DOM nodes, JS values, message
events) are modelled as inductive data, the two Rust `main` functions and
their closures as Lean functions, and the cross-context message exchange
as a labelled transition system over an explicit system state.
-/

namespace BevyWebworker

/-- `web_sys::OffscreenCanvas`: a drawable surface with a width and a
height.  Produced by `HtmlCanvasElement::transfer_control_to_offscreen`. -/
structure OffscreenCanvas where
  width : Nat
  height : Nat
deriving DecidableEq, Repr

/-- The JS values that flow through this program: the empty
`js_sys::Array` the worker posts as its readiness signal, an
`OffscreenCanvas`, and a catch-all for any other JS value (strings model
them enough for the claims, which only distinguish canvas from
non-canvas). -/
inductive JsValue where
  | emptyArray : JsValue
  | offscreenCanvasVal (c : OffscreenCanvas) : JsValue
  | otherVal (tag : String) : JsValue
deriving DecidableEq, Repr

/-- `msg.data().dyn_into::<OffscreenCanvas>()` (bevy_worker.rs lines
170-172): succeeds exactly when the dynamic type of the value is
`OffscreenCanvas`. -/
def dynIntoOffscreenCanvas : JsValue → Option OffscreenCanvas
  | JsValue.offscreenCanvasVal c => some c
  | _ => none

/- ------------------------------------------------------------------ -/
/- DOM model and the main-context launcher (main.rs).                  -/
/- ------------------------------------------------------------------ -/

/-- A DOM element attached to the document body: either a `<canvas>`
element with its width/height attributes, or any other element. -/
inductive DomNode where
  | canvasNode (width : Nat) (height : Nat) : DomNode
  | otherNode (tag : String) : DomNode
deriving DecidableEq, Repr

/-- `true` exactly on `<canvas>` elements. -/
def DomNode.isCanvas : DomNode → Bool
  | DomNode.canvasNode _ _ => true
  | DomNode.otherNode _ => false

/-- The `document` object: `document.body()` is `None` when the page has
no body. The body is represented by its list of child elements. -/
structure DocumentObj where
  body : Option (List DomNode)
deriving DecidableEq, Repr

/-- The `window` object: `window.document()` may be absent. -/
structure BrowserWindow where
  document : Option DocumentObj
deriving DecidableEq, Repr

/-- The ambient host environment of the main context:
`web_sys::window()` may return `None`. -/
structure DomEnv where
  window : Option BrowserWindow
deriving DecidableEq, Repr

/-- Result of running the main-context launcher to completion: the final
children of `document.body` and the `OffscreenCanvas` captured by the
`onmessage` closure (at this point the worker has been spawned and the
main-side message handler installed). -/
structure MainResult where
  bodyChildren : List DomNode
  offscreen : OffscreenCanvas
deriving DecidableEq, Repr

/-- `main` of main.rs (lines 31-85), up to and including installing the
worker `onmessage` handler.  Each `unwrap` on an absent host object is a
panic, modelled as `Except.error` with the failing access named.

The canvas is created, its width set to 1280 and height to 720 (lines
43-44), appended to the body (line 46), and converted to an
`OffscreenCanvas` of the same size (line 49). -/
def mainLauncher (env : DomEnv) : Except String MainResult :=
  match env.window with
  | none => Except.error "unwrap: web_sys window"
  | some w =>
    match w.document with
    | none => Except.error "unwrap: window.document"
    | some doc =>
      match doc.body with
      | none => Except.error "unwrap: document.body"
      | some children =>
        let canvas : DomNode := DomNode.canvasNode 1280 720
        let offscreen : OffscreenCanvas := { width := 1280, height := 720 }
        Except.ok { bodyChildren := children ++ [canvas], offscreen := offscreen }

/- ------------------------------------------------------------------ -/
/- Worker-side engine model (bevy_worker.rs).                          -/
/- ------------------------------------------------------------------ -/

/-- `bevy::window::WebElement` of the patched engine fork: the web
element a window renders into.  The source matches on the
`OffscreenCanvas` variant and treats every other variant as
unreachable, so the model keeps one representative other variant. -/
inductive WebElement where
  | offscreenCanvas (c : OffscreenCanvas) : WebElement
  | otherElement (tag : String) : WebElement
deriving DecidableEq, Repr

/-- The engine `Window` component; only the `web_element` field is read
by this program (bevy_worker.rs line 33). -/
structure Window where
  web_element : WebElement
deriving DecidableEq, Repr

/-- `bevy::window::WebHandle`: the platform handle variant for web
targets. -/
inductive WebHandle where
  | offscreenCanvas (c : OffscreenCanvas) : WebHandle
  | otherHandle (tag : String) : WebHandle
deriving DecidableEq, Repr

/-- `bevy::window::AbstractHandleWrapper`: the handle component the
renderer picks up from the window entity. -/
inductive AbstractHandleWrapper where
  | webHandle (h : WebHandle) : AbstractHandleWrapper
deriving DecidableEq, Repr

/-- An ECS entity carrying a `Window` component: `primary` records the
`PrimaryWindow` marker component, `handle` an optional
`AbstractHandleWrapper` component. -/
structure WindowEntity where
  id : Nat
  window : Window
  primary : Bool
  handle : Option AbstractHandleWrapper
deriving DecidableEq, Repr

/-- 2D mesh shapes used by `setup` (bevy `shape::Circle`,
`shape::Quad`, `shape::RegularPolygon`).  Coordinates are exact
rationals; every literal in the source (50., 100., 0.25, ...) is exactly
representable. -/
inductive MeshShape where
  | circle (radius : ℚ) : MeshShape
  | quad (size : ℚ × ℚ) : MeshShape
  | regularPolygon (radius : ℚ) (sides : Nat) : MeshShape
deriving DecidableEq, Repr

/-- An RGB color. -/
structure Color where
  r : ℚ
  g : ℚ
  b : ℚ
deriving DecidableEq, Repr

/-- `Color::rgb`. -/
def Color.rgb (r g b : ℚ) : Color := { r := r, g := g, b := b }

/-- `Color::PURPLE` (engine constant: rgb(0.5, 0.0, 0.5)). -/
def Color.PURPLE : Color := Color.rgb (1/2) 0 (1/2)

/-- `Color::LIME_GREEN` (engine constant: rgb(0.2, 0.8, 0.2)). -/
def Color.LIME_GREEN : Color := Color.rgb (1/5) (4/5) (1/5)

/-- `Color::TURQUOISE` (engine constant: rgb(0.25, 0.88, 0.82)). -/
def Color.TURQUOISE : Color := Color.rgb (1/4) (22/25) (41/50)

/-- The entities spawned by the `setup` startup system: the 2D camera
bundle, `MaterialMesh2dBundle`s (mesh shape, material color, transform
translation) and `SpriteBundle`s (sprite color, optional custom size,
transform translation). -/
inductive SceneEntity where
  | camera2d : SceneEntity
  | materialMesh2d (mesh : MeshShape) (material : Color)
      (translation : ℚ × ℚ × ℚ) : SceneEntity
  | spriteEntity (color : Color) (custom_size : Option (ℚ × ℚ))
      (translation : ℚ × ℚ × ℚ) : SceneEntity
deriving DecidableEq, Repr

/-- `true` on the shape entities (everything `setup` spawns except the
camera). -/
def SceneEntity.isShape : SceneEntity → Bool
  | SceneEntity.camera2d => false
  | SceneEntity.materialMesh2d _ _ _ => true
  | SceneEntity.spriteEntity _ _ _ => true

/-- The y component of the entity translation (`0` for the camera,
which sits at the default transform). -/
def SceneEntity.translationY : SceneEntity → ℚ
  | SceneEntity.camera2d => 0
  | SceneEntity.materialMesh2d _ _ (_, y, _) => y
  | SceneEntity.spriteEntity _ _ (_, y, _) => y

/-- The engine world as far as this program observes it: an entity id
counter, the window entities, and the scene entities spawned by startup
systems. -/
structure EngineWorld where
  nextEntity : Nat
  windows : List WindowEntity
  scene : List SceneEntity
deriving DecidableEq, Repr

/-- The world of `App::new()` before any plugin runs. -/
def EngineWorld.empty : EngineWorld := { nextEntity := 0, windows := [], scene := [] }

/-- `bevy::window::WindowPlugin` as configured in `DefaultPlugins`
(bevy_worker.rs lines 66-78): carries the optional primary window
description. -/
structure WindowPlugin where
  primary_window : Option Window
deriving DecidableEq, Repr

/-- `WindowPlugin::build`: when a primary window is configured, spawn
one fresh entity carrying that `Window` plus the `PrimaryWindow`
marker (and no handle yet). -/
def WindowPlugin.build (p : WindowPlugin) (w : EngineWorld) : EngineWorld :=
  match p.primary_window with
  | some win =>
    { w with
      nextEntity := w.nextEntity + 1
      windows := w.windows ++ [{ id := w.nextEntity, window := win, primary := true, handle := none }] }
  | none => w

/-- `Plugin::build` of `RegisterPrimaryWindow` (bevy_worker.rs lines
16-45).  It queries `(Entity, &Window, With<PrimaryWindow>)`,
`get_single().unwrap()`s the result (panicking when zero or several
primary windows exist), matches the `web_element` (panicking via
`unreachable!()` on any non-`OffscreenCanvas` variant), and inserts an
`AbstractHandleWrapper::WebHandle(WebHandle::OffscreenCanvas(canvas))`
component onto the queried entity.  Panics are `Except.error`. -/
def RegisterPrimaryWindow.build (world : EngineWorld) : Except String EngineWorld :=
  match world.windows.filter (fun we => we.primary) with
  | [] => Except.error "get_single unwrap: NoEntities"
  | [e] =>
    match e.window.web_element with
    | WebElement.offscreenCanvas canvas =>
      Except.ok
        { world with
          windows := world.windows.map (fun we =>
            if we.id = e.id then
              { we with
                handle := some (AbstractHandleWrapper.webHandle (WebHandle.offscreenCanvas canvas)) }
            else we) }
    | _ => Except.error "internal error: entered unreachable code"
  | _ => Except.error "get_single unwrap: MultipleEntities"

/-- The `setup` startup system (bevy_worker.rs lines 102-147) as the
list of entities its `commands.spawn` calls create, in source order:
a 2D camera, a purple circle of radius 50 at x = -150, a
rgb(0.25, 0.25, 0.75) sprite rectangle with custom size 50 by 100 at
x = -50, a lime-green 50 by 100 quad at x = 50, and a turquoise
6-sided regular polygon of radius 50 at x = 150; all translations have
y = 0 and z = 0. -/
def setup : List SceneEntity :=
  [ SceneEntity.camera2d
  , SceneEntity.materialMesh2d (MeshShape.circle 50) Color.PURPLE (-150, 0, 0)
  , SceneEntity.spriteEntity (Color.rgb (1/4) (1/4) (3/4)) (some (50, 100)) (-50, 0, 0)
  , SceneEntity.materialMesh2d (MeshShape.quad (50, 100)) Color.LIME_GREEN (50, 0, 0)
  , SceneEntity.materialMesh2d (MeshShape.regularPolygon 50 6) Color.TURQUOISE (150, 0, 0) ]

/-- `bevy::app::RunMode` of the schedule runner: run a single tick and
return, or loop (optionally waiting between ticks) without returning. -/
inductive RunMode where
  | once : RunMode
  | loopMode (wait : Option Nat) : RunMode
deriving DecidableEq, Repr

/-- The `ScheduleRunnerSettings` resource reduces to its run mode. -/
abbrev ScheduleRunnerSettings := RunMode

/-- `ScheduleRunnerSettings::run_once()`. -/
def ScheduleRunnerSettings.run_once : ScheduleRunnerSettings := RunMode.once

/-- `ScheduleRunnerSettings::default()`: loop without wait. -/
def ScheduleRunnerSettings.defaultSettings : ScheduleRunnerSettings := RunMode.loopMode none

/-- What `ScheduleRunnerPlugin` reads at run time: the inserted
`ScheduleRunnerSettings` resource when present, its default otherwise. -/
def effectiveRunMode (inserted : Option ScheduleRunnerSettings) : RunMode :=
  inserted.getD ScheduleRunnerSettings.defaultSettings

/-- Result of a terminating engine run: how many update ticks the
schedule runner executed and the final world. -/
structure RunReport where
  ticks : Nat
  finalWorld : EngineWorld
deriving DecidableEq, Repr

/-- Outcome of running a piece of worker code: a Rust panic with its
message, divergence (an endless loop), or normal completion. -/
inductive RunOutcome where
  | panicked (msg : String) : RunOutcome
  | diverges : RunOutcome
  | completed (report : RunReport) : RunOutcome
deriving DecidableEq, Repr

/-- The `ScheduleRunnerPlugin` runner invoked by `App::run`: it first
runs the `Startup` schedule once (here the only startup system is
`setup`, whose spawns are passed in as `startupSpawns`), then executes
update ticks according to the run mode.  No system registered by this
app mutates the modelled state during an update tick, so a tick leaves
the world unchanged; with `RunMode::Once` the runner executes exactly
one tick and returns, with a loop mode it never returns. -/
def scheduleRunnerRun (runMode : RunMode) (startupSpawns : List SceneEntity)
    (world : EngineWorld) : RunOutcome :=
  let afterStartup : EngineWorld := { world with scene := world.scene ++ startupSpawns }
  match runMode with
  | RunMode.once => RunOutcome.completed { ticks := 1, finalWorld := afterStartup }
  | RunMode.loopMode _ => RunOutcome.diverges

/-- The world after `add_plugins(DefaultPlugins { primary_window:
WebElement::OffscreenCanvas(canvas) })` has built every plugin.  Of the
group (bevy_worker.rs lines 80-99) only two plugins touch the modelled
state, in this order: `WindowPlugin` (built from `Window { web_element:
self.primary_window, ..Window::default() }`) spawns the primary window
entity, then `RegisterPrimaryWindow` performs the handle fix-up; the
remaining plugins (log, time, input, render, sprite, ...) do not touch
windows or scene entities. -/
def worldAfterPlugins (canvas : OffscreenCanvas) : Except String EngineWorld :=
  let window_plugin : WindowPlugin :=
    { primary_window := some { web_element := WebElement.offscreenCanvas canvas } }
  RegisterPrimaryWindow.build (window_plugin.build EngineWorld.empty)

/-- `single_pass` (bevy_worker.rs lines 149-159): build an app with the
`ScheduleRunnerSettings::run_once()` resource inserted, the
`DefaultPlugins` group configured with the received canvas as primary
window element, and `setup` registered in the `Startup` schedule; then
`run()` it.  A panic during plugin building aborts the run. -/
def single_pass (canvas : OffscreenCanvas) : RunOutcome :=
  let settings : ScheduleRunnerSettings := ScheduleRunnerSettings.run_once
  match worldAfterPlugins canvas with
  | Except.error msg => RunOutcome.panicked msg
  | Except.ok world => scheduleRunnerRun (effectiveRunMode (some settings)) setup world

/- ------------------------------------------------------------------ -/
/- The two message handlers and the readiness signal.                  -/
/- ------------------------------------------------------------------ -/

/-- The readiness signal the worker posts (bevy_worker.rs line 181):
an empty `js_sys::Array`. -/
def readyMsg : JsValue := JsValue.emptyArray

/-- A message posted with `post_message_with_transfer`: the payload and
the transfer list. -/
structure PostedMessage where
  payload : JsValue
  transfer : List JsValue
deriving DecidableEq, Repr

/-- The main-context `onmessage` closure (main.rs lines 61-79): for any
received event (its content is ignored) it posts one message to the
worker whose payload is the captured `OffscreenCanvas` and whose
transfer list is a one-element array holding that same canvas. -/
def mainOnMessage (offscreen_canvas : OffscreenCanvas) : PostedMessage :=
  { payload := JsValue.offscreenCanvasVal offscreen_canvas
  , transfer := [JsValue.offscreenCanvasVal offscreen_canvas] }

/-- The worker-context `onmessage` closure (bevy_worker.rs lines
169-175): `dyn_into::<OffscreenCanvas>` the event data, panic with the
`expect` message when the payload is not an `OffscreenCanvas`, and
otherwise run `single_pass` on the received canvas. -/
def workerOnMessage (msg : JsValue) : RunOutcome :=
  match dynIntoOffscreenCanvas msg with
  | some offscreen_canvas => single_pass offscreen_canvas
  | none => RunOutcome.panicked "message must be an OffscreenCanvas"

/- ------------------------------------------------------------------ -/
/- Combined two-context execution as a transition system.              -/
/- ------------------------------------------------------------------ -/

/-- The statements of the worker top-level script (`main` of
bevy_worker.rs, lines 162-183) that are observable in the model, in
source order: install the `onmessage` handler (line 176), then post the
readiness message (lines 180-182). -/
inductive WorkerStep where
  | registerHandler : WorkerStep
  | postReady : WorkerStep
deriving DecidableEq, Repr

/-- The worker top-level script: `set_onmessage` first, `post_message`
of the readiness signal second. -/
def workerScriptSrc : List WorkerStep :=
  [WorkerStep.registerHandler, WorkerStep.postReady]

/-- State of the combined system after the main-context script has run
to completion (the main script runs synchronously before the browser
delivers any message, so at this point the canvas exists, the worker is
spawned, and the main-side `onmessage` handler is installed).

`surface` is the `OffscreenCanvas` captured by the main-side closure;
`workerScript` the not-yet-executed tail of the worker top-level
script; `toMain` / `toWorker` the in-flight message queues (ordered,
at-most-once delivery) in the two directions; `readyPosted` counts
messages the worker posted to the main context, `surfacePosted` the
messages the main context posted to the worker; `workerOutcome` records
the result of the worker handler once it has run. -/
structure SysState where
  surface : OffscreenCanvas
  workerScript : List WorkerStep
  workerHandlerInstalled : Bool
  toMain : List JsValue
  toWorker : List PostedMessage
  readyPosted : Nat
  surfacePosted : Nat
  workerOutcome : Option RunOutcome
deriving DecidableEq, Repr

/-- Initial state of the combined system, right after `mainLauncher`
finished with OffscreenCanvas `surface`. -/
def initState (surface : OffscreenCanvas) : SysState :=
  { surface := surface
  , workerScript := workerScriptSrc
  , workerHandlerInstalled := false
  , toMain := []
  , toWorker := []
  , readyPosted := 0
  , surfacePosted := 0
  , workerOutcome := none }

/-- One step of the combined system.  The worker script statements
execute in order; a queued message is delivered to the main context by
running the main `onmessage` closure (installed since the initial
state), which posts the surface-transfer message; a queued message is
delivered to the worker only once its top-level script has finished
(the worker event loop starts after the script) by running the worker
`onmessage` closure. -/
inductive Step : SysState → SysState → Prop where
  | workerRegisterHandler (s : SysState) (rest : List WorkerStep)
      (hs : s.workerScript = WorkerStep.registerHandler :: rest) :
      Step s { s with workerScript := rest, workerHandlerInstalled := true }
  | workerPostReady (s : SysState) (rest : List WorkerStep)
      (hs : s.workerScript = WorkerStep.postReady :: rest) :
      Step s { s with
               workerScript := rest
               toMain := s.toMain ++ [readyMsg]
               readyPosted := s.readyPosted + 1 }
  | deliverToMain (s : SysState) (m : JsValue) (rest : List JsValue)
      (hq : s.toMain = m :: rest) :
      Step s { s with
               toMain := rest
               toWorker := s.toWorker ++ [mainOnMessage s.surface]
               surfacePosted := s.surfacePosted + 1 }
  | deliverToWorker (s : SysState) (m : PostedMessage) (rest : List PostedMessage)
      (hq : s.toWorker = m :: rest) (hscript : s.workerScript = [])
      (hh : s.workerHandlerInstalled = true) :
      Step s { s with
               toWorker := rest
               workerOutcome := some (workerOnMessage m.payload) }

/-- States of the combined system reachable from the initial state. -/
inductive Reachable (surface : OffscreenCanvas) : SysState → Prop where
  | init : Reachable surface (initState surface)
  | step {s t : SysState} : Reachable surface s → Step s t → Reachable surface t

/-- A state from which no step is possible: the system has quiesced. -/
def Final (s : SysState) : Prop := ∀ t, ¬ Step s t

/-- State after the worker installed its handler. -/
def st1 (c : OffscreenCanvas) : SysState :=
  { initState c with
    workerScript := [WorkerStep.postReady]
    workerHandlerInstalled := true }

/-- State after the worker posted the readiness signal. -/
def st2 (c : OffscreenCanvas) : SysState :=
  { st1 c with
    workerScript := []
    toMain := [readyMsg]
    readyPosted := 1 }

/-- State after the main context received the readiness signal and
posted the surface-transfer message. -/
def st3 (c : OffscreenCanvas) : SysState :=
  { st2 c with
    toMain := []
    toWorker := [mainOnMessage c]
    surfacePosted := 1 }

/-- State after the worker received the surface message and ran its
handler. -/
def st4 (c : OffscreenCanvas) : SysState :=
  { st3 c with
    toWorker := []
    workerOutcome := some (workerOnMessage (mainOnMessage c).payload) }

/-- Every reachable state of the combined system is one of the five
states of the unique execution. -/
theorem reachable_characterization {c : OffscreenCanvas} {s : SysState}
    (h : Reachable c s) :
    s = initState c ∨ s = st1 c ∨ s = st2 c ∨ s = st3 c ∨ s = st4 c := by
  induction h with
  | init => exact Or.inl rfl
  | step _ hstep ih =>
    rcases ih with rfl | rfl | rfl | rfl | rfl
    · cases hstep with
      | workerRegisterHandler rest hs =>
        simp only [initState, workerScriptSrc, List.cons.injEq, true_and] at hs
        subst hs
        exact Or.inr (Or.inl rfl)
      | workerPostReady rest hs =>
        simp [initState, workerScriptSrc] at hs
      | deliverToMain m rest hq =>
        simp [initState] at hq
      | deliverToWorker m rest hq hscript hh =>
        simp [initState] at hq
    · cases hstep with
      | workerRegisterHandler rest hs =>
        simp [st1, initState, workerScriptSrc] at hs
      | workerPostReady rest hs =>
        simp only [st1, List.cons.injEq, true_and] at hs
        subst hs
        exact Or.inr (Or.inr (Or.inl rfl))
      | deliverToMain m rest hq =>
        simp [st1, initState] at hq
      | deliverToWorker m rest hq hscript hh =>
        simp [st1, initState] at hq
    · cases hstep with
      | workerRegisterHandler rest hs =>
        simp [st2, st1, initState, workerScriptSrc] at hs
      | workerPostReady rest hs =>
        simp [st2, st1, initState, workerScriptSrc] at hs
      | deliverToMain m rest hq =>
        simp only [st2, List.cons.injEq] at hq
        obtain ⟨rfl, rfl⟩ := hq
        exact Or.inr (Or.inr (Or.inr (Or.inl rfl)))
      | deliverToWorker m rest hq hscript hh =>
        simp [st2, st1, initState] at hq
    · cases hstep with
      | workerRegisterHandler rest hs =>
        simp [st3, st2, st1, initState, workerScriptSrc] at hs
      | workerPostReady rest hs =>
        simp [st3, st2, st1, initState, workerScriptSrc] at hs
      | deliverToMain m rest hq =>
        simp [st3, st2, st1, initState] at hq
      | deliverToWorker m rest hq hscript hh =>
        simp only [st3, List.cons.injEq] at hq
        obtain ⟨rfl, rfl⟩ := hq
        exact Or.inr (Or.inr (Or.inr (Or.inr rfl)))
    · cases hstep with
      | workerRegisterHandler rest hs =>
        simp [st4, st3, st2, st1, initState, workerScriptSrc] at hs
      | workerPostReady rest hs =>
        simp [st4, st3, st2, st1, initState, workerScriptSrc] at hs
      | deliverToMain m rest hq =>
        simp [st4, st3, st2, st1, initState] at hq
      | deliverToWorker m rest hq hscript hh =>
        simp [st4, st3, st2, st1, initState] at hq

/-- `st1` is reachable. -/
theorem reachable_st1 (c : OffscreenCanvas) : Reachable c (st1 c) :=
  Reachable.step Reachable.init
    (Step.workerRegisterHandler (initState c) [WorkerStep.postReady] rfl)

/-- `st2` is reachable. -/
theorem reachable_st2 (c : OffscreenCanvas) : Reachable c (st2 c) :=
  Reachable.step (reachable_st1 c)
    (Step.workerPostReady (st1 c) [] rfl)

/-- `st3` is reachable. -/
theorem reachable_st3 (c : OffscreenCanvas) : Reachable c (st3 c) :=
  Reachable.step (reachable_st2 c)
    (Step.deliverToMain (st2 c) readyMsg [] rfl)

/-- `st4` is reachable. -/
theorem reachable_st4 (c : OffscreenCanvas) : Reachable c (st4 c) :=
  Reachable.step (reachable_st3 c)
    (Step.deliverToWorker (st3 c) (mainOnMessage c) [] rfl rfl rfl)

/-- No step is possible from `st4`: the system has quiesced. -/
theorem final_st4 (c : OffscreenCanvas) : Final (st4 c) := by
  intro t hstep
  cases hstep with
  | workerRegisterHandler rest hs =>
    simp [st4, st3, st2, st1, initState, workerScriptSrc] at hs
  | workerPostReady rest hs =>
    simp [st4, st3, st2, st1, initState, workerScriptSrc] at hs
  | deliverToMain m rest hq =>
    simp [st4, st3, st2, st1, initState] at hq
  | deliverToWorker m rest hq hscript hh =>
    simp [st4, st3, st2, st1, initState] at hq

/-- The first four states are not final: a step is available from each. -/
theorem not_final_st0123 (c : OffscreenCanvas) :
    ¬ Final (initState c) ∧ ¬ Final (st1 c) ∧ ¬ Final (st2 c) ∧ ¬ Final (st3 c) :=
  ⟨fun hf => hf _ (Step.workerRegisterHandler (initState c) [WorkerStep.postReady] rfl),
   fun hf => hf _ (Step.workerPostReady (st1 c) [] rfl),
   fun hf => hf _ (Step.deliverToMain (st2 c) readyMsg [] rfl),
   fun hf => hf _ (Step.deliverToWorker (st3 c) (mainOnMessage c) [] rfl rfl rfl)⟩

/- ------------------------------------------------------------------ -/
/- Claims.                                                             -/
/- ------------------------------------------------------------------ -/

/-- C1: in every execution the worker context emits exactly one
readiness signal (at most one in any reachable state, exactly one once
the system quiesces), it has installed its message handler before any
readiness signal is posted, and the main context has posted the
surface-transfer message at most as often as worker messages were
emitted and received, so the surface is never sent before the
readiness signal has been emitted. -/
theorem c1_ready_signal_ordering {c : OffscreenCanvas} {s : SysState}
    (h : Reachable c s) :
    s.readyPosted ≤ 1 ∧
    (Final s → s.readyPosted = 1) ∧
    (0 < s.readyPosted → s.workerHandlerInstalled = true) ∧
    s.surfacePosted + s.toMain.length ≤ s.readyPosted := by
  rcases reachable_characterization h with rfl | rfl | rfl | rfl | rfl
  · exact ⟨by simp [initState], fun hf => absurd hf (not_final_st0123 c).1,
      by simp [initState], by simp [initState]⟩
  · exact ⟨by simp [st1, initState], fun hf => absurd hf (not_final_st0123 c).2.1,
      by simp [st1, initState], by simp [st1, initState]⟩
  · exact ⟨by simp [st2, st1, initState], fun _ => rfl, fun _ => rfl,
      by simp [st2, st1, initState, readyMsg]⟩
  · exact ⟨by simp [st3, st2, st1, initState], fun _ => rfl, fun _ => rfl,
      by simp [st3, st2, st1, initState]⟩
  · exact ⟨by simp [st4, st3, st2, st1, initState], fun _ => rfl, fun _ => rfl,
      by simp [st4, st3, st2, st1, initState]⟩

/-- C1 witness: the ordering invariant at the concrete reachable state
right after the worker posted readiness, for the 1280 by 720 canvas. -/
theorem c1_ready_signal_ordering_witness :
    (st2 ⟨1280, 720⟩).readyPosted ≤ 1 ∧
    (Final (st2 ⟨1280, 720⟩) → (st2 ⟨1280, 720⟩).readyPosted = 1) ∧
    (0 < (st2 ⟨1280, 720⟩).readyPosted → (st2 ⟨1280, 720⟩).workerHandlerInstalled = true) ∧
    (st2 ⟨1280, 720⟩).surfacePosted + (st2 ⟨1280, 720⟩).toMain.length ≤
      (st2 ⟨1280, 720⟩).readyPosted :=
  c1_ready_signal_ordering (reachable_st2 ⟨1280, 720⟩)

/-- C2: for every host environment in which `window`, `document` and
`document.body` exist, the launcher completes and appends exactly one
element to the body, namely one canvas with width 1280 and height
720. -/
theorem c2_canvas_creation (env : DomEnv) (w : BrowserWindow)
    (doc : DocumentObj) (children : List DomNode)
    (hw : env.window = some w) (hd : w.document = some doc)
    (hb : doc.body = some children) :
    ∃ r, mainLauncher env = Except.ok r ∧
      r.bodyChildren = children ++ [DomNode.canvasNode 1280 720] ∧
      (r.bodyChildren.filter DomNode.isCanvas).length =
        (children.filter DomNode.isCanvas).length + 1 := by
  have hml : mainLauncher env = Except.ok
      { bodyChildren := children ++ [DomNode.canvasNode 1280 720]
      , offscreen := { width := 1280, height := 720 } } := by
    simp [mainLauncher, hw, hd, hb]
  exact ⟨_, hml, rfl, by simp [List.filter_append, DomNode.isCanvas]⟩

/-- C2 witness: the launcher on a live DOM with an empty body. -/
theorem c2_canvas_creation_witness :
    ∃ r, mainLauncher { window := some { document := some { body := some [] } } } =
        Except.ok r ∧
      r.bodyChildren = [] ++ [DomNode.canvasNode 1280 720] ∧
      (r.bodyChildren.filter DomNode.isCanvas).length =
        (([] : List DomNode).filter DomNode.isCanvas).length + 1 :=
  c2_canvas_creation { window := some { document := some { body := some [] } } }
    { document := some { body := some [] } } { body := some [] } [] rfl rfl rfl

/-- C3: the worker message handler panics with its expect message on
every payload that is not an OffscreenCanvas, without entering the
render pass; on an OffscreenCanvas payload it is exactly `single_pass`
on the received canvas. -/
theorem c3_worker_payload_validation :
    (∀ msg : JsValue, dynIntoOffscreenCanvas msg = none →
      workerOnMessage msg = RunOutcome.panicked "message must be an OffscreenCanvas") ∧
    (∀ (msg : JsValue) (c : OffscreenCanvas), dynIntoOffscreenCanvas msg = some c →
      workerOnMessage msg = single_pass c) := by
  constructor
  · intro msg hm
    simp [workerOnMessage, hm]
  · intro msg c hm
    simp [workerOnMessage, hm]

/-- C3 witness: the readiness array payload makes the handler panic;
a canvas payload makes it run `single_pass` on that canvas. -/
theorem c3_worker_payload_validation_witness :
    workerOnMessage readyMsg = RunOutcome.panicked "message must be an OffscreenCanvas" ∧
    workerOnMessage (JsValue.offscreenCanvasVal ⟨1280, 720⟩) = single_pass ⟨1280, 720⟩ :=
  ⟨c3_worker_payload_validation.1 readyMsg rfl,
   c3_worker_payload_validation.2 (JsValue.offscreenCanvasVal ⟨1280, 720⟩) ⟨1280, 720⟩ rfl⟩

/-- C4: exactly one surface handoff occurs: in every reachable state
the main context has posted the surface-transfer message at most once,
and once the system quiesces it has posted it exactly once and the
worker handler has consumed it, running on the transferred canvas. -/
theorem c4_exactly_one_handoff {c : OffscreenCanvas} {s : SysState}
    (h : Reachable c s) :
    s.surfacePosted ≤ 1 ∧
    (Final s → s.surfacePosted = 1 ∧ s.workerOutcome = some (single_pass c)) := by
  rcases reachable_characterization h with rfl | rfl | rfl | rfl | rfl
  · exact ⟨by simp [initState], fun hf => absurd hf (not_final_st0123 c).1⟩
  · exact ⟨by simp [st1, initState], fun hf => absurd hf (not_final_st0123 c).2.1⟩
  · exact ⟨by simp [st2, st1, initState], fun hf => absurd hf (not_final_st0123 c).2.2.1⟩
  · exact ⟨by simp [st3, st2, st1, initState], fun hf => absurd hf (not_final_st0123 c).2.2.2⟩
  · exact ⟨by simp [st4, st3, st2, st1, initState], fun _ => ⟨rfl, rfl⟩⟩

/-- C4 witness: at the quiesced state of the execution with the
1280 by 720 canvas the surface was posted exactly once and the worker
ran `single_pass` on it. -/
theorem c4_exactly_one_handoff_witness :
    (st4 ⟨1280, 720⟩).surfacePosted = 1 ∧
    (st4 ⟨1280, 720⟩).workerOutcome = some (single_pass ⟨1280, 720⟩) :=
  (c4_exactly_one_handoff (reachable_st4 ⟨1280, 720⟩)).2 (final_st4 ⟨1280, 720⟩)

/-- C5: in every reachable state, every message the main context has
posted to the worker carries the offscreen surface itself as its
payload and a one-element transfer list containing that same
surface. -/
theorem c5_payload_and_transfer_list {c : OffscreenCanvas} {s : SysState}
    (h : Reachable c s) :
    ∀ m ∈ s.toWorker,
      m.payload = JsValue.offscreenCanvasVal c ∧
      m.transfer = [JsValue.offscreenCanvasVal c] := by
  rcases reachable_characterization h with rfl | rfl | rfl | rfl | rfl <;>
    simp [initState, st1, st2, st3, st4, mainOnMessage]

/-- C5 witness: the pending surface message in the reachable state
after the main context reacted to readiness. -/
theorem c5_payload_and_transfer_list_witness :
    (mainOnMessage ⟨1280, 720⟩).payload = JsValue.offscreenCanvasVal ⟨1280, 720⟩ ∧
    (mainOnMessage ⟨1280, 720⟩).transfer = [JsValue.offscreenCanvasVal ⟨1280, 720⟩] :=
  c5_payload_and_transfer_list (reachable_st3 ⟨1280, 720⟩) (mainOnMessage ⟨1280, 720⟩)
    (by simp [st3])

/-- C6: the window-substitute plugin build panics when zero
primary-window entities exist and when more than one exists, and it
completes only when exactly one exists. -/
theorem c6_primary_window_cardinality (world : EngineWorld) :
    ((world.windows.filter (fun we => we.primary)).length = 0 →
      RegisterPrimaryWindow.build world = Except.error "get_single unwrap: NoEntities") ∧
    (2 ≤ (world.windows.filter (fun we => we.primary)).length →
      RegisterPrimaryWindow.build world = Except.error "get_single unwrap: MultipleEntities") ∧
    (∀ w2, RegisterPrimaryWindow.build world = Except.ok w2 →
      (world.windows.filter (fun we => we.primary)).length = 1) := by
  rcases hq : world.windows.filter (fun we => we.primary) with _ | ⟨e, _ | ⟨e2, rest⟩⟩
  · refine ⟨fun _ => ?_, fun h2 => ?_, fun w2 hok => ?_⟩
    · simp [RegisterPrimaryWindow.build, hq]
    · simp [hq] at h2
    · simp [RegisterPrimaryWindow.build, hq] at hok
  · refine ⟨fun h0 => ?_, fun h2 => ?_, fun w2 _ => ?_⟩
    · simp [hq] at h0
    · simp [hq] at h2
    · simp [hq]
  · refine ⟨fun h0 => ?_, fun _ => ?_, fun w2 hok => ?_⟩
    · simp [hq] at h0
    · simp [RegisterPrimaryWindow.build, hq]
    · simp [RegisterPrimaryWindow.build, hq] at hok

/-- C6 witness: the three cardinality cases at concrete worlds: no
window entity, two primary windows, one primary window. -/
theorem c6_primary_window_cardinality_witness :
    RegisterPrimaryWindow.build EngineWorld.empty =
      Except.error "get_single unwrap: NoEntities" ∧
    RegisterPrimaryWindow.build
      { nextEntity := 2
      , windows :=
          [ { id := 0, window := { web_element := WebElement.offscreenCanvas ⟨1280, 720⟩ }
            , primary := true, handle := none }
          , { id := 1, window := { web_element := WebElement.offscreenCanvas ⟨1280, 720⟩ }
            , primary := true, handle := none } ]
      , scene := [] } = Except.error "get_single unwrap: MultipleEntities" ∧
    (({ nextEntity := 1
      , windows :=
          [ { id := 0, window := { web_element := WebElement.offscreenCanvas ⟨1280, 720⟩ }
            , primary := true, handle := none } ]
      , scene := [] } : EngineWorld).windows.filter (fun we => we.primary)).length = 1 :=
  ⟨(c6_primary_window_cardinality EngineWorld.empty).1 rfl,
   (c6_primary_window_cardinality _).2.1 (by decide),
   (c6_primary_window_cardinality _).2.2 _ rfl⟩

/-- C7: when exactly one primary-window entity exists and its window
web element is an offscreen canvas, the plugin build completes and the
resulting world is the original with precisely the platform-handle
component wrapping that same canvas inserted on that same entity (the
scene untouched); and in the worker app this insertion has already
happened on the world handed to the schedule runner, hence before any
frame executes. -/
theorem c7_handle_insertion (world : EngineWorld) (e : WindowEntity)
    (canvas : OffscreenCanvas)
    (hq : world.windows.filter (fun we => we.primary) = [e])
    (hel : e.window.web_element = WebElement.offscreenCanvas canvas) :
    (∃ w2, RegisterPrimaryWindow.build world = Except.ok w2 ∧
      w2.scene = world.scene ∧
      w2.nextEntity = world.nextEntity ∧
      w2.windows = world.windows.map (fun we =>
        if we.id = e.id then
          { we with
            handle := some (AbstractHandleWrapper.webHandle (WebHandle.offscreenCanvas canvas)) }
        else we)) ∧
    (∀ c0 : OffscreenCanvas, ∃ w, worldAfterPlugins c0 = Except.ok w ∧
      w.windows.map (fun we => we.handle) =
        [some (AbstractHandleWrapper.webHandle (WebHandle.offscreenCanvas c0))]) := by
  constructor
  · have hb2 : RegisterPrimaryWindow.build world = Except.ok
        { world with
          windows := world.windows.map (fun we =>
            if we.id = e.id then
              { we with
                handle := some (AbstractHandleWrapper.webHandle (WebHandle.offscreenCanvas canvas)) }
            else we) } := by
      simp [RegisterPrimaryWindow.build, hq, hel]
    exact ⟨_, hb2, rfl, rfl, rfl⟩
  · intro c0
    exact ⟨_, rfl, rfl⟩

/-- C7 witness: the fix-up applied inside the worker app for the
1280 by 720 canvas: the single window entity ends up carrying the
handle wrapping exactly that canvas. -/
theorem c7_handle_insertion_witness :
    ∃ w, worldAfterPlugins ⟨1280, 720⟩ = Except.ok w ∧
      w.windows.map (fun we => we.handle) =
        [some (AbstractHandleWrapper.webHandle (WebHandle.offscreenCanvas ⟨1280, 720⟩))] :=
  (c7_handle_insertion
    { nextEntity := 1
    , windows :=
        [ { id := 0, window := { web_element := WebElement.offscreenCanvas ⟨1280, 720⟩ }
          , primary := true, handle := none } ]
    , scene := [] }
    { id := 0, window := { web_element := WebElement.offscreenCanvas ⟨1280, 720⟩ }
    , primary := true, handle := none }
    ⟨1280, 720⟩ rfl rfl).2 ⟨1280, 720⟩

/-- C8: `setup` spawns exactly one camera and exactly four shape
entities: the purple radius-50 circle at x = -150, the
rgb(0.25, 0.25, 0.75) sprite rectangle with custom size 50 by 100 at
x = -50, the lime-green 50 by 100 quad at x = 50 and the turquoise
six-sided regular polygon of radius 50 at x = 150, all with y = 0;
and the scene of the world after the single engine run is exactly the
startup spawn list: created once at startup and never mutated. -/
theorem c8_startup_scene :
    (setup.filter (fun e => !e.isShape)).length = 1 ∧
    setup.filter SceneEntity.isShape =
      [ SceneEntity.materialMesh2d (MeshShape.circle 50) Color.PURPLE (-150, 0, 0)
      , SceneEntity.spriteEntity (Color.rgb (1/4) (1/4) (3/4)) (some (50, 100)) (-50, 0, 0)
      , SceneEntity.materialMesh2d (MeshShape.quad (50, 100)) Color.LIME_GREEN (50, 0, 0)
      , SceneEntity.materialMesh2d (MeshShape.regularPolygon 50 6) Color.TURQUOISE (150, 0, 0) ] ∧
    (setup.filter SceneEntity.isShape).length = 4 ∧
    (∀ e ∈ setup, e.translationY = 0) ∧
    (∀ (canvas : OffscreenCanvas) (r : RunReport),
      single_pass canvas = RunOutcome.completed r → r.finalWorld.scene = setup) := by
  refine ⟨rfl, rfl, rfl, by decide, ?_⟩
  intro canvas r hr
  have hsp : single_pass canvas = RunOutcome.completed
      { ticks := 1
      , finalWorld :=
          { nextEntity := 1
          , windows :=
              [ { id := 0, window := { web_element := WebElement.offscreenCanvas canvas }
                , primary := true
                , handle := some (AbstractHandleWrapper.webHandle (WebHandle.offscreenCanvas canvas)) } ]
          , scene := setup } } := rfl
  rw [hsp] at hr
  injection hr with h
  subst h
  rfl

/-- C8 witness: the camera translation has y = 0, and the world after
the single run with the 1280 by 720 canvas has exactly the startup
scene. -/
theorem c8_startup_scene_witness :
    SceneEntity.camera2d.translationY = 0 ∧
    ({ ticks := 1
     , finalWorld :=
         { nextEntity := 1
         , windows :=
             [ { id := 0, window := { web_element := WebElement.offscreenCanvas ⟨1280, 720⟩ }
               , primary := true
               , handle := some (AbstractHandleWrapper.webHandle (WebHandle.offscreenCanvas ⟨1280, 720⟩)) } ]
         , scene := setup } } : RunReport).finalWorld.scene = setup :=
  ⟨c8_startup_scene.2.2.2.1 SceneEntity.camera2d (by simp [setup]),
   c8_startup_scene.2.2.2.2 ⟨1280, 720⟩ _ rfl⟩

/-- C9: the worker app inserts the run-once schedule-runner setting,
whose effective run mode is a single tick; consequently `single_pass`
completes after exactly one executed tick for every canvas, whereas
the default loop mode would make the schedule runner diverge. -/
theorem c9_single_tick :
    effectiveRunMode (some ScheduleRunnerSettings.run_once) = RunMode.once ∧
    (∀ canvas : OffscreenCanvas,
      ∃ r, single_pass canvas = RunOutcome.completed r ∧ r.ticks = 1) ∧
    (∀ (spawns : List SceneEntity) (world : EngineWorld),
      scheduleRunnerRun (RunMode.loopMode none) spawns world = RunOutcome.diverges) :=
  ⟨rfl, fun _ => ⟨_, rfl, rfl⟩, fun _ _ => rfl⟩

/-- C10: the window-substitute build panics through its unreachable
branch whenever the single primary window carries any web element
other than an offscreen canvas; and in this program that branch is
never taken: for every canvas received in the handoff the worker
constructs the window with the offscreen-canvas variant, so the plugin
build succeeds and `single_pass` completes normally. -/
theorem c10_unreachable_branch :
    (∀ (world : EngineWorld) (e : WindowEntity),
      world.windows.filter (fun we => we.primary) = [e] →
      (∀ c0 : OffscreenCanvas, e.window.web_element ≠ WebElement.offscreenCanvas c0) →
      RegisterPrimaryWindow.build world =
        Except.error "internal error: entered unreachable code") ∧
    (∀ canvas : OffscreenCanvas,
      (∃ w, worldAfterPlugins canvas = Except.ok w) ∧
      (∃ r, single_pass canvas = RunOutcome.completed r)) := by
  constructor
  · intro world e hq hne
    cases hel : e.window.web_element with
    | offscreenCanvas c0 => exact absurd hel (hne c0)
    | otherElement tag => simp [RegisterPrimaryWindow.build, hq, hel]
  · intro canvas
    exact ⟨⟨_, rfl⟩, ⟨_, rfl⟩⟩

/-- C10 witness: a single primary window whose web element is not an
offscreen canvas drives the build into the unreachable branch. -/
theorem c10_unreachable_branch_witness :
    RegisterPrimaryWindow.build
      { nextEntity := 1
      , windows :=
          [ { id := 0, window := { web_element := WebElement.otherElement "span" }
            , primary := true, handle := none } ]
      , scene := [] } = Except.error "internal error: entered unreachable code" :=
  c10_unreachable_branch.1
    { nextEntity := 1
    , windows :=
        [ { id := 0, window := { web_element := WebElement.otherElement "span" }
          , primary := true, handle := none } ]
    , scene := [] }
    { id := 0, window := { web_element := WebElement.otherElement "span" }
    , primary := true, handle := none }
    rfl (fun _ h => WebElement.noConfusion h)

end BevyWebworker
